import Mathlib

/-!
Front-end handlers of the meeting assistant.

A shallow embedding of the event handlers in `frontend/home/js/dashboard.js`,
`frontend/home/js/script.js` and `frontend/home/js/login.js`, with the DOM, the
browser storage and the network as explicit state.
-/

set_option autoImplicit false

namespace DOM

/-- An element of the page. The document is kept flattened in tree order, so an
element is referred to by its position; `ancestors` lists the positions of the
elements it is nested in. `id` is the empty string when the element has no id. -/
structure Element where
  tagName : String
  id : String
  classList : List String
  attributes : List (String × String)
  ancestors : List Nat
  deriving DecidableEq, Repr

/-- The elements of a page in tree order. -/
abbrev Document := List Element

/-- How a handler run ends: normally, or by an uncaught `TypeError` (a property
read on `null`). -/
inductive Completion where
  | normal
  | typeError
  deriving DecidableEq, Repr

/-- The document a handler leaves behind together with how it ended. -/
structure Outcome where
  document : Document
  completion : Completion
  deriving DecidableEq, Repr

/-- The call `el.classList.add(token)`: the token is appended unless present. -/
def classListAdd (token : String) (e : Element) : Element :=
  if token ∈ e.classList then e else { e with classList := e.classList ++ [token] }

/-- The call `el.classList.remove(token)`. -/
def classListRemove (token : String) (e : Element) : Element :=
  { e with classList := e.classList.filter (fun c => decide (c ≠ token)) }

/-- Apply `f` to the element at position `i`; nothing happens past the end. -/
def modifyAt (f : Element → Element) : Nat → Document → Document
  | _, [] => []
  | 0, e :: es => f e :: es
  | i + 1, e :: es => e :: modifyAt f i es

/-- The loop `nodes.forEach(n => f(n))` over a static node list. -/
def forEach (nodes : List Nat) (f : Element → Element) (doc : Document) : Document :=
  nodes.foldl (fun d i => modifyAt f i d) doc

/-- Does the element at position `k` carry the class `token`? -/
def hasClass (doc : Document) (token : String) (k : Nat) : Bool :=
  match doc[k]? with
  | some e => decide (token ∈ e.classList)
  | none => false

/-- Position of the first element whose id is `key`. -/
def findById (key : String) : Document → Option Nat
  | [] => none
  | e :: es => if e.id = key then some 0 else (findById key es).map (fun i => i + 1)

/-- The call `document.getElementById(key)`: the first element in tree order
with that id, `none` for JavaScript's `null`. An empty id is no id. -/
def getElementById (doc : Document) (key : String) : Option Nat :=
  if key = "" then none else findById key doc

/-- The call `el.getAttribute(name)`. -/
def getAttribute (name : String) (e : Element) : Option String :=
  (e.attributes.find? (fun kv => decide (kv.1 = name))).map (fun kv => kv.2)

/-- A class-list update that touches no class other than `active`. -/
def KeepsShape (f : Element → Element) : Prop :=
  ∀ e, (f e).tagName = e.tagName ∧ (f e).ancestors = e.ancestors ∧
    ∀ c, c ≠ "active" → (c ∈ (f e).classList ↔ c ∈ e.classList)

/-- The attribute `name` of the element at position `k`, if both exist. -/
def attributeAt (doc : Document) (name : String) (k : Nat) : Option String :=
  (doc[k]?).bind (getAttribute name)

/-- A class-list update leaves ids and attributes alone. -/
def KeepsNames (f : Element → Element) : Prop :=
  ∀ e, (f e).id = e.id ∧ (f e).attributes = e.attributes

/-- A compound selector as used by the scripts: `.c`, or `.c tag` (a `tag`
element nested in an element of class `c`). -/
inductive Selector where
  | byClass (c : String)
  | descendant (c : String) (tag : String)
  deriving DecidableEq, Repr

/-- The class a selector asks for. -/
def Selector.className : Selector → String
  | Selector.byClass c => c
  | Selector.descendant c _ => c

/-- Does the element `e` of the document match the selector? -/
def selectsElement (doc : Document) (s : Selector) (e : Element) : Bool :=
  match s with
  | Selector.byClass c => decide (c ∈ e.classList)
  | Selector.descendant c tag =>
      decide (e.tagName = tag) && e.ancestors.any (fun a => hasClass doc c a)

/-- Does the element at position `k` match the selector? -/
def selects (doc : Document) (s : Selector) (k : Nat) : Bool :=
  match doc[k]? with
  | none => false
  | some e => selectsElement doc s e

/-- The call `document.querySelectorAll(s)`: a static list, in tree order. -/
def querySelectorAll (doc : Document) (s : Selector) : List Nat :=
  (List.range doc.length).filter (fun k => selects doc s k)

/-- The element at `k` is the only one of `group` that carries `active`. -/
def OnlyActive (doc : Document) (group : List Nat) (k : Nat) : Prop :=
  ∀ j ∈ group, hasClass doc "active" j = true ↔ j = k

/-- No element of `group` carries `active`. -/
def NoneActive (doc : Document) (group : List Nat) : Prop :=
  ∀ j ∈ group, hasClass doc "active" j = false

instance (doc : Document) (group : List Nat) (k : Nat) : Decidable (OnlyActive doc group k) := by
  unfold OnlyActive; infer_instance

instance (doc : Document) (group : List Nat) : Decidable (NoneActive doc group) := by
  unfold NoneActive; infer_instance

end DOM

namespace Dashboard
open DOM

/-- Line 2: `const navItems = document.querySelectorAll(".sidebar li")`. -/
def navItems (doc : Document) : List Nat :=
  querySelectorAll doc (Selector.descendant "sidebar" "li")

/-- Line 3: `const sections = document.querySelectorAll(".section")`. -/
def sections (doc : Document) : List Nat :=
  querySelectorAll doc (Selector.byClass "section")

/-- The argument of `getElementById` on line 11: `item.dataset.section`, which
is `undefined` when the attribute is missing and is then converted to the
string "undefined". -/
def sectionKey (doc : Document) (item : Nat) : String :=
  (attributeAt doc "data-section" item).getD "undefined"

/-- Lines 6-12: the click listener of the sidebar item at position `item`,
closed over the node lists `navItems` and `sections` taken at load time. -/
def navItemClick (navItems sections : List Nat) (item : Nat) (doc : Document) : Outcome :=
  let d1 := forEach navItems (classListRemove "active") doc
  let d2 := forEach sections (classListRemove "active") d1
  let d3 := modifyAt (classListAdd "active") item d2
  match getElementById d3 (sectionKey d3 item) with
  | none => { document := d3, completion := Completion.typeError }
  | some t => { document := modifyAt (classListAdd "active") t d3, completion := Completion.normal }

end Dashboard

namespace Script
open DOM

/-- Line 3: `const tabs = document.querySelectorAll(".tab")`. -/
def tabs (doc : Document) : List Nat :=
  querySelectorAll doc (Selector.byClass "tab")

/-- Line 4: `const sections = document.querySelectorAll(".tab-section")`. -/
def sections (doc : Document) : List Nat :=
  querySelectorAll doc (Selector.byClass "tab-section")

/-- The argument of `getElementById` on line 13: `tab.getAttribute("data-tab")`,
which is `null` when the attribute is missing and is then converted to the
string "null". -/
def tabKey (doc : Document) (tab : Nat) : String :=
  (attributeAt doc "data-tab" tab).getD "null"

/-- Lines 7-14: the click listener of the tab at position `tab`, closed over
the node lists `tabs` and `sections` taken at load time. -/
def tabClick (tabs sections : List Nat) (tab : Nat) (doc : Document) : Outcome :=
  let d1 := forEach tabs (classListRemove "active") doc
  let d2 := modifyAt (classListAdd "active") tab d1
  let d3 := forEach sections (classListRemove "active") d2
  let target := tabKey d3 tab
  match getElementById d3 target with
  | none => { document := d3, completion := Completion.typeError }
  | some t => { document := modifyAt (classListAdd "active") t d3, completion := Completion.normal }

end Script

namespace DOM

/-- The two activation groups of the front end: the sidebar items with the
`.section` panels (`dashboard.js`) and the tabs with the `.tab-section` panels
(`script.js`). -/
inductive Group where
  | sidebar
  | tabs
  deriving DecidableEq, Repr

/-- The selectors of the group, as its script collects them at load time. -/
def Group.selectors : Group → Document → List Nat
  | Group.sidebar => Dashboard.navItems
  | Group.tabs => Script.tabs

/-- The panels of the group, as its script collects them at load time. -/
def Group.panels : Group → Document → List Nat
  | Group.sidebar => Dashboard.sections
  | Group.tabs => Script.sections

/-- The id the clicked selector asks for (`data-section` or `data-tab`). -/
def Group.key : Group → Document → Nat → String
  | Group.sidebar => Dashboard.sectionKey
  | Group.tabs => Script.tabKey

/-- The click listener of the group. -/
def Group.click : Group → List Nat → List Nat → Nat → Document → Outcome
  | Group.sidebar => Dashboard.navItemClick
  | Group.tabs => Script.tabClick

/-- The id of the element at position `k`. -/
def idAt (doc : Document) (k : Nat) : Option String :=
  (doc[k]?).map (fun e => e.id)

/-- The state the spec promises after a click on `item`: `item` is the only
selector carrying `active`, and a panel whose id is `key` is the only panel
carrying `active`. -/
def Activated (out : Document) (selectors panels : List Nat) (item : Nat) (key : String) : Prop :=
  OnlyActive out selectors item ∧ ∃ t ∈ panels, idAt out t = some key ∧ OnlyActive out panels t

instance (out : Document) (selectors panels : List Nat) (item : Nat) (key : String) :
    Decidable (Activated out selectors panels item key) := by
  unfold Activated; infer_instance

/-- Some panel of the group has the id `key`. -/
def NamesPanel (doc : Document) (panels : List Nat) (key : String) : Prop :=
  ∃ p ∈ panels, idAt doc p = some key

instance (doc : Document) (panels : List Nat) (key : String) :
    Decidable (NamesPanel doc panels key) := by
  unfold NamesPanel; infer_instance

/-- Some element of the document has the (non-empty) id `key`. -/
def NamesElement (doc : Document) (key : String) : Prop :=
  key ≠ "" ∧ ∃ e ∈ doc, e.id = key

instance (doc : Document) (key : String) : Decidable (NamesElement doc key) := by
  unfold NamesElement; infer_instance

/-- A sidebar item of the sample dashboard page. -/
def sampleItem (key : String) (cls : List String) : Element :=
  { tagName := "li", id := "", classList := cls, attributes := [("data-section", key)],
    ancestors := [0] }

/-- A panel of the sample dashboard page. -/
def samplePanel (i : String) (cls : List String) : Element :=
  { tagName := "section", id := i, classList := cls, attributes := [], ancestors := [] }

/-- A sample dashboard page: a sidebar with four items, two panels and the theme
button. The third item asks for a panel that does not exist, the fourth for the
theme button. -/
def sampleDashboard : Document :=
  [ { tagName := "ul", id := "", classList := ["sidebar"], attributes := [], ancestors := [] },
    sampleItem "overview" ["active"], sampleItem "tasks" [], sampleItem "nowhere" [],
    sampleItem "themeSwitch" [],
    samplePanel "overview" ["section", "active"], samplePanel "tasks" ["section"],
    { tagName := "button", id := "themeSwitch", classList := [], attributes := [],
      ancestors := [] } ]

/-- A tab of the sample tabbed page. -/
def sampleTab (key : String) (cls : List String) : Element :=
  { tagName := "button", id := "", classList := "tab" :: cls, attributes := [("data-tab", key)],
    ancestors := [] }

/-- A sample tabbed page: three tabs and two panels; the third tab asks for a
panel that does not exist. -/
def sampleTabs : Document :=
  [ sampleTab "summary" ["active"], sampleTab "notes" [], sampleTab "nowhere" [],
    { tagName := "div", id := "summary", classList := ["tab-section", "active"], attributes := [],
      ancestors := [] },
    { tagName := "div", id := "notes", classList := ["tab-section"], attributes := [],
      ancestors := [] } ]

end DOM

namespace Login

/-- A JavaScript value as `JSON.parse` can produce it, and `undefined`. A number
is kept as the text its conversion to a string gives; floating point is not
modelled. The fields of an object have distinct names. -/
inductive JsValue where
  | undefined
  | null
  | boolean (b : Bool)
  | number (shown : String)
  | string (s : String)
  | array (items : List JsValue)
  | object (fields : List (String × JsValue))

mutual
/-- The conversion of a value to a string, as the operator `+` with a string on
the left and `localStorage.setItem` apply it. -/
def JsValue.toJsString : JsValue → String
  | JsValue.undefined => "undefined"
  | JsValue.null => "null"
  | JsValue.boolean true => "true"
  | JsValue.boolean false => "false"
  | JsValue.number shown => shown
  | JsValue.string s => s
  | JsValue.array items => joinItems items
  | JsValue.object _ => "[object Object]"
/-- The text `Array.prototype.join` gives with the separator ",". -/
def joinItems : List JsValue → String
  | [] => ""
  | x :: rest => itemString x ++ joinTail rest
/-- The items after the first one, each behind its comma. -/
def joinTail : List JsValue → String
  | [] => ""
  | x :: rest => "," ++ (itemString x ++ joinTail rest)
termination_by structural l => l
/-- The text of one array item inside `join`: empty for `null` and `undefined`. -/
def itemString : JsValue → String
  | JsValue.undefined => ""
  | JsValue.null => ""
  | JsValue.boolean true => "true"
  | JsValue.boolean false => "false"
  | JsValue.number shown => shown
  | JsValue.string s => s
  | JsValue.array items => joinItems items
  | JsValue.object _ => "[object Object]"
termination_by structural v => v
end

/-- An exception a listener can meet. -/
inductive JsError where
  | typeError
  | syntaxError
  | networkError
  deriving DecidableEq, Repr

/-- The property read `data.name` for the names the script uses (`message`,
`email`, `error`; none of them is inherited): a `TypeError` on `null` and
`undefined`, the field of an object, `undefined` everywhere else. -/
def getProp (data : JsValue) (name : String) : Except JsError JsValue :=
  match data with
  | JsValue.undefined => Except.error JsError.typeError
  | JsValue.null => Except.error JsError.typeError
  | JsValue.object fields =>
      match fields.find? (fun kv => decide (kv.1 = name)) with
      | some kv => Except.ok kv.2
      | none => Except.ok JsValue.undefined
  | _ => Except.ok JsValue.undefined

/-- The white space and line terminator characters `String.prototype.trim`
strips. -/
def isTrimmed (c : Char) : Bool :=
  let n := c.toNat
  n = 0x09 || n = 0x0A || n = 0x0B || n = 0x0C || n = 0x0D || n = 0x20 || n = 0xA0
    || n = 0x1680 || (0x2000 ≤ n && n ≤ 0x200A) || n = 0x2028 || n = 0x2029 || n = 0x202F
    || n = 0x205F || n = 0x3000 || n = 0xFEFF

/-- The call `s.trim()`. -/
def trim (s : String) : String :=
  String.mk ((s.data.dropWhile isTrimmed).reverse.dropWhile isTrimmed).reverse

/-- The text `t` is the text `s` without the white space at its two ends: `s`
is `t` between two runs of white space, and `t` neither begins nor ends with
white space. -/
def IsTrimOf (s t : String) : Prop :=
  ∃ pre post : List Char, s.data = pre ++ t.data ++ post ∧
    (∀ c ∈ pre, isTrimmed c = true) ∧ (∀ c ∈ post, isTrimmed c = true) ∧
    (∀ c, t.data.head? = some c → isTrimmed c = false) ∧
    (∀ c, t.data.getLast? = some c → isTrimmed c = false)

/-- A lower-case hexadecimal digit. -/
def hexDigit (n : Nat) : Char :=
  "0123456789abcdef".data.getD n '0'

/-- How `JSON.stringify` writes one character inside a string literal. -/
def quoteChar (c : Char) : List Char :=
  if c = '"' then ['\\', '"']
  else if c = '\\' then ['\\', '\\']
  else if c.toNat = 0x08 then ['\\', 'b']
  else if c.toNat = 0x09 then ['\\', 't']
  else if c.toNat = 0x0A then ['\\', 'n']
  else if c.toNat = 0x0C then ['\\', 'f']
  else if c.toNat = 0x0D then ['\\', 'r']
  else if c.toNat < 0x20 then ['\\', 'u', '0', '0', hexDigit (c.toNat / 16), hexDigit (c.toNat % 16)]
  else [c]

/-- The text `JSON.stringify(s)` for a string `s`. -/
def quoteJSONString (s : String) : String :=
  String.mk ('"' :: (s.data.flatMap quoteChar ++ ['"']))

/-- Line 18: `JSON.stringify({ email, password })`. -/
def stringifyCredentials (email password : String) : String :=
  "\x7b\"email\":" ++ quoteJSONString email ++ ",\"password\":" ++ quoteJSONString password
    ++ "\x7d"

/-- The value of a hexadecimal digit. -/
def hexValue (c : Char) : Option Nat :=
  let n := c.toNat
  if 0x30 ≤ n ∧ n ≤ 0x39 then some (n - 0x30)
  else if 0x61 ≤ n ∧ n ≤ 0x66 then some (n - 0x61 + 10)
  else if 0x41 ≤ n ∧ n ≤ 0x46 then some (n - 0x41 + 10)
  else none

/-- The character a JSON escape of two characters stands for, by its second
character. -/
def unescape (x : Char) : Option Char :=
  if x = '"' then some '"'
  else if x = '\\' then some '\\'
  else if x = '/' then some '/'
  else if x = 'b' then some (Char.ofNat 0x08)
  else if x = 't' then some (Char.ofNat 0x09)
  else if x = 'n' then some (Char.ofNat 0x0A)
  else if x = 'f' then some (Char.ofNat 0x0C)
  else if x = 'r' then some (Char.ofNat 0x0D)
  else none

/-- The character a JSON escape `\uXXXX` stands for, by its four digits. The
halves of a surrogate pair are not read. -/
def escapedChar (a b c d : Char) : Option Char :=
  match hexValue a, hexValue b, hexValue c, hexValue d with
  | some x, some y, some z, some w =>
    let n := ((x * 16 + y) * 16 + z) * 16 + w
    if 0xD800 ≤ n ∧ n ≤ 0xDFFF then none else some (Char.ofNat n)
  | _, _, _, _ => none

/-- Put a character in front of what was read. -/
def consRead (c : Char) : Option (List Char × List Char) → Option (List Char × List Char)
  | none => none
  | some (s, rest) => some (c :: s, rest)

/-- Read the inside of a JSON string literal up to its closing quote, as a
JSON parser does: the result is the string the literal stands for and the
text behind the literal. This is the receiver's side of the exchange, the
measure of what a body carries; it is no part of the scripts. -/
def readChars : List Char → Option (List Char × List Char)
  | [] => none
  | c :: rest =>
    if c = '"' then some ([], rest)
    else if c = '\\' then
      match rest with
      | [] => none
      | x :: rest2 =>
        if x = 'u' then
          match rest2 with
          | a :: b :: h :: l :: rest3 =>
            match escapedChar a b h l with
            | some ch => consRead ch (readChars rest3)
            | none => none
          | _ => none
        else
          match unescape x with
          | some ch => consRead ch (readChars rest2)
          | none => none
    else if c.toNat < 0x20 then none
    else consRead c (readChars rest)

/-- Read a JSON string literal at the head of a text. -/
def readJSONString : List Char → Option (List Char × List Char)
  | [] => none
  | c :: rest => if c = '"' then readChars rest else none

/-- Read the fixed text `lit` at the head of a text. -/
def expect : List Char → List Char → Option (List Char)
  | [], l => some l
  | _ :: _, [] => none
  | c :: cs, d :: l => if c = d then expect cs l else none

/-- Read a request body as the JSON object with the two string members `email`
and `password`, in this order and without white space: the identifier and the
secret the body carries, `none` when the body is no such object. -/
def readCredentials (body : String) : Option (String × String) :=
  match expect "\x7b\"email\":".data body.data with
  | none => none
  | some r1 =>
    match readJSONString r1 with
    | none => none
    | some (email, r2) =>
      match expect ",\"password\":".data r2 with
      | none => none
      | some r3 =>
        match readJSONString r3 with
        | none => none
        | some (password, r4) =>
          if r4 = ['\x7d'] then some (String.mk email, String.mk password) else none

/-- A request handed to `fetch`. -/
structure Request where
  url : String
  method : String
  headers : List (String × String)
  body : String
  deriving DecidableEq, Repr

/-- A response as the script uses it: `res.ok`, and the value `res.json()`
resolves to (`none` when the body is not JSON and the promise rejects). -/
structure Response where
  ok : Bool
  json : Option JsValue

/-- What becomes of the promise `fetch` returns: fulfilled with a response,
rejected (no response received), or not settled while the page lives. -/
inductive FetchResult where
  | fulfilled (res : Response)
  | rejected
  | pending

/-- The call `localStorage.getItem(key)`. -/
def getItem (key : String) (storage : List (String × String)) : Option String :=
  (storage.find? (fun kv => decide (kv.1 = key))).map (fun kv => kv.2)

/-- The call `localStorage.setItem(key, value)`. -/
def setItem (key value : String) : List (String × String) → List (String × String)
  | [] => [(key, value)]
  | kv :: rest => if kv.1 = key then (key, value) :: rest else kv :: setItem key value rest

/-- What the login page's scripts can observe and change: the storage, the
values assigned to `window.location.href`, the texts passed to `alert`, the
requests passed to `fetch`, the errors passed to `console.error` (all oldest
first), and whether the submit event had `preventDefault` called on it. -/
structure Browser where
  localStorage : List (String × String)
  navigations : List String
  alerts : List String
  requests : List Request
  console : List JsError
  defaultPrevented : Bool
  deriving DecidableEq, Repr

/-- The call `alert(text)`. -/
def alert (text : String) (b : Browser) : Browser :=
  { b with alerts := b.alerts ++ [text] }

/-- The assignment `window.location.href = url`. -/
def navigate (url : String) (b : Browser) : Browser :=
  { b with navigations := b.navigations ++ [url] }

/-- Lines 15-19: the request of the first listener. -/
def loginRequest (email password : String) : Request :=
  { url := "http://127.0.0.1:5000/login",
    method := "POST",
    headers := [("Content-Type", "application/json")],
    body := stringifyCredentials email password }

/-- Lines 4-19: the first submit listener up to its first `await`. The flag
says whether it is suspended on the request (`true`) or has returned. -/
def firstListenerStart (emailField passwordField : String) (b : Browser) : Browser × Bool :=
  let b := { b with defaultPrevented := true }
  let email := trim emailField
  let password := trim passwordField
  if email = "" ∨ password = "" then
    (alert "❌ Please fill in all fields." b, false)
  else
    ({ b with requests := b.requests ++ [loginRequest email password] }, true)

/-- Lines 30-33: the `catch` block. -/
def catchBlock (err : JsError) (b : Browser) : Browser :=
  alert "⚠️ Server error, try again later." { b with console := b.console ++ [err] }

/-- Lines 21-29: the `try` block after the response has arrived. The result is
the browser when the block ends and the exception that ended it, if any. -/
def afterResponse (res : Response) (b : Browser) : Browser × Option JsError :=
  match res.json with
  | none => (b, some JsError.syntaxError)
  | some data =>
    if res.ok then
      match getProp data "message" with
      | Except.error err => (b, some err)
      | Except.ok message =>
        let b := alert ("✅ " ++ message.toJsString) b
        match getProp data "email" with
        | Except.error err => (b, some err)
        | Except.ok email =>
          let b := { b with localStorage := setItem "userEmail" email.toJsString b.localStorage }
          (navigate "home/dashboard.html" b, none)
    else
      match getProp data "error" with
      | Except.error err => (b, some err)
      | Except.ok error => (alert ("❌ " ++ error.toJsString) b, none)

/-- Lines 21-33: the first submit listener from its first `await` on. -/
def firstListenerResume (net : FetchResult) (b : Browser) : Browser :=
  match net with
  | FetchResult.pending => b
  | FetchResult.rejected => catchBlock JsError.networkError b
  | FetchResult.fulfilled res =>
    match afterResponse res b with
    | (b, none) => b
    | (b, some err) => catchBlock err b

/-- Lines 41-45: the second submit listener. -/
def secondListener (b : Browser) : Browser :=
  navigate "home/dashboard.js" { b with defaultPrevented := true }

/-- A submit event on the login form, with `emailField` and `passwordField` the
values of the inputs `email` and `password`: the listeners run in the order
they were added, the first one up to its `await`; the rest of the first one
runs when the request settles. -/
def submit (emailField passwordField : String) (net : FetchResult) (b : Browser) : Browser :=
  let started := firstListenerStart emailField passwordField b
  let b := secondListener started.1
  if started.2 then firstListenerResume net b else b

/-- Lines 35-40: the `DOMContentLoaded` listener. `welcome` is the text of the
first element of class `welcome`, `none` when the page has no such element. -/
def onDOMContentLoaded (storage : List (String × String)) (welcome : Option String) :
    Except JsError (Option String) :=
  match getItem "userEmail" storage with
  | none => Except.ok welcome
  | some userEmail =>
    if userEmail = "" then Except.ok welcome
    else
      match welcome with
      | none => Except.error JsError.typeError
      | some _ => Except.ok (some ("👋 Welcome, " ++ userEmail))

/-- A success response with the body `{"message":"ok","email":"a@b.com"}`. -/
def sampleAccepted : Response :=
  { ok := true,
    json := some (JsValue.object [("message", JsValue.string "ok"), ("email", JsValue.string "a@b.com")]) }

/-- A failure response with the body `{"error":"bad credentials"}`. -/
def sampleRefused : Response :=
  { ok := false, json := some (JsValue.object [("error", JsValue.string "bad credentials")]) }

/-- A browser in which nothing has happened yet. -/
def freshBrowser : Browser :=
  { localStorage := [], navigations := [], alerts := [], requests := [], console := [],
    defaultPrevented := false }

end Login

namespace Dashboard

/-- The form part of the dashboard page as `dashboard.js` reaches it through
`getElementById`: the value of each input and the texts of the items of each
list; `none` where the page has no element of that id. -/
structure Forms where
  meetingTitle : Option String
  meetingDate : Option String
  meetingTime : Option String
  scheduleList : Option (List String)
  taskInput : Option String
  taskList : Option (List String)
  deriving DecidableEq, Repr

/-- What a submit listener leaves behind: the page, whether `preventDefault`
was called on the event, and how the listener ended. -/
structure Submitted where
  page : Forms
  defaultPrevented : Bool
  completion : DOM.Completion
  deriving DecidableEq, Repr

/-- Modelled from the spec: the markup of the dashboard page, which says which
fields belong to the schedule form and what their default values are, is not
among the sources. By the spec the handler "resets all fields to empty", so
`scheduleForm.reset()` gives the three meeting fields the empty value. -/
def scheduleFormReset (p : Forms) : Forms :=
  { p with
    meetingTitle := p.meetingTitle.map (fun _ => ""),
    meetingDate := p.meetingDate.map (fun _ => ""),
    meetingTime := p.meetingTime.map (fun _ => "") }

/-- Modelled from the spec: the markup of the dashboard page, which says which
fields belong to the task form and what their default values are, is not
among the sources. By the spec the handler "resets all fields to empty", so
`taskForm.reset()` gives the task field the empty value. -/
def taskFormReset (p : Forms) : Forms :=
  { p with taskInput := p.taskInput.map (fun _ => "") }

/-- Line 58: the text of a schedule entry. -/
def scheduleText (title date time : String) : String :=
  title ++ " — " ++ date ++ " at " ++ time

/-- Lines 51-62: the submit listener of the schedule form. A missing element
ends it with a `TypeError` at the line that uses it. -/
def scheduleSubmit (p : Forms) : Submitted :=
  match p.meetingTitle, p.meetingDate, p.meetingTime, p.scheduleList with
  | some title, some date, some time, some entries =>
    { page := scheduleFormReset { p with scheduleList := some (entries ++ [scheduleText title date time]) },
      defaultPrevented := true, completion := DOM.Completion.normal }
  | _, _, _, _ => { page := p, defaultPrevented := true, completion := DOM.Completion.typeError }

/-- Lines 68-77: the submit listener of the task form. A missing element ends
it with a `TypeError` at the line that uses it. -/
def taskSubmit (p : Forms) : Submitted :=
  match p.taskInput, p.taskList with
  | some task, some entries =>
    { page := taskFormReset { p with taskList := some (entries ++ [task]) },
      defaultPrevented := true, completion := DOM.Completion.normal }
  | _, _ => { page := p, defaultPrevented := true, completion := DOM.Completion.typeError }

/-- A dashboard page with two tasks, one meeting and the given field values. -/
def sampleForms (title date time task : String) : Forms :=
  { meetingTitle := some title, meetingDate := some date, meetingTime := some time,
    scheduleList := some ["Kickoff — 2023-12-31 at 10:00"],
    taskInput := some task, taskList := some ["Write agenda", "Send invites"] }

end Dashboard

/-! ## Facts about the DOM primitives -/

namespace DOM

theorem length_modifyAt (f : Element → Element) (i : Nat) (d : Document) :
    (modifyAt f i d).length = d.length := by
  induction d generalizing i with
  | nil => cases i <;> rfl
  | cons e es ih =>
    cases i with
    | zero => rfl
    | succ i => simp [modifyAt, ih]

theorem length_forEach (nodes : List Nat) (f : Element → Element) (d : Document) :
    (forEach nodes f d).length = d.length := by
  induction nodes generalizing d with
  | nil => rfl
  | cons n ns ih => simp [forEach, List.foldl] at ih ⊢; rw [ih, length_modifyAt]

theorem getElem?_modifyAt (f : Element → Element) (i k : Nat) (d : Document) :
    (modifyAt f i d)[k]? = if k = i then (d[k]?).map f else d[k]? := by
  induction d generalizing i k with
  | nil => cases i <;> simp [modifyAt]
  | cons e es ih =>
    cases i with
    | zero => cases k <;> simp [modifyAt]
    | succ i =>
      cases k with
      | zero => simp [modifyAt]
      | succ k => simp [modifyAt, ih]

theorem getElem?_forEach (f : Element → Element) (hf : ∀ e, f (f e) = f e)
    (nodes : List Nat) (k : Nat) (d : Document) :
    (forEach nodes f d)[k]? = if k ∈ nodes then (d[k]?).map f else d[k]? := by
  induction nodes generalizing d with
  | nil => simp [forEach]
  | cons n ns ih =>
    have step : forEach (n :: ns) f d = forEach ns f (modifyAt f n d) := rfl
    rw [step, ih, getElem?_modifyAt]
    by_cases hk : k = n
    · subst hk
      cases h : d[k]? <;> simp [hf]
    · by_cases hm : k ∈ ns <;> simp [hk, hm]

theorem id_classListAdd (c : String) (e : Element) : (classListAdd c e).id = e.id := by
  unfold classListAdd; split <;> rfl

theorem attributes_classListAdd (c : String) (e : Element) :
    (classListAdd c e).attributes = e.attributes := by
  unfold classListAdd; split <;> rfl

theorem mem_classListAdd (c x : String) (e : Element) :
    x ∈ (classListAdd c e).classList ↔ x = c ∨ x ∈ e.classList := by
  unfold classListAdd
  split
  · rename_i h
    constructor
    · intro hx; exact Or.inr hx
    · rintro (rfl | hx)
      · exact h
      · exact hx
  · simp [or_comm]

theorem mem_classListRemove (c x : String) (e : Element) :
    x ∈ (classListRemove c e).classList ↔ x ≠ c ∧ x ∈ e.classList := by
  simp [classListRemove, and_comm]

theorem classListRemove_idem (c : String) (e : Element) :
    classListRemove c (classListRemove c e) = classListRemove c e := by
  simp [classListRemove]

theorem keepsNames_add (c : String) : KeepsNames (classListAdd c) :=
  fun e => ⟨id_classListAdd c e, attributes_classListAdd c e⟩

theorem keepsNames_remove (c : String) : KeepsNames (classListRemove c) :=
  fun _ => ⟨rfl, rfl⟩

theorem findById_modifyAt (f : Element → Element) (hf : KeepsNames f) (key : String)
    (i : Nat) (d : Document) : findById key (modifyAt f i d) = findById key d := by
  induction d generalizing i with
  | nil => cases i <;> rfl
  | cons e es ih =>
    cases i with
    | zero => simp [modifyAt, findById, (hf e).1]
    | succ i => simp [modifyAt, findById, ih]

theorem findById_forEach (f : Element → Element) (hf : KeepsNames f) (key : String)
    (nodes : List Nat) (d : Document) : findById key (forEach nodes f d) = findById key d := by
  induction nodes generalizing d with
  | nil => rfl
  | cons n ns ih =>
    have step : forEach (n :: ns) f d = forEach ns f (modifyAt f n d) := rfl
    rw [step, ih, findById_modifyAt f hf]

theorem getElementById_modifyAt (f : Element → Element) (hf : KeepsNames f) (key : String)
    (i : Nat) (d : Document) : getElementById (modifyAt f i d) key = getElementById d key := by
  simp [getElementById, findById_modifyAt f hf]

theorem getElementById_forEach (f : Element → Element) (hf : KeepsNames f) (key : String)
    (nodes : List Nat) (d : Document) :
    getElementById (forEach nodes f d) key = getElementById d key := by
  simp [getElementById, findById_forEach f hf]

theorem attributeAt_modifyAt (f : Element → Element) (hf : KeepsNames f) (name : String)
    (i k : Nat) (d : Document) : attributeAt (modifyAt f i d) name k = attributeAt d name k := by
  unfold attributeAt
  rw [getElem?_modifyAt]
  split
  · cases d[k]? <;> simp [getAttribute, (hf _).2]
  · rfl

theorem attributeAt_forEach (f : Element → Element) (hf : KeepsNames f) (name : String)
    (nodes : List Nat) (k : Nat) (d : Document) :
    attributeAt (forEach nodes f d) name k = attributeAt d name k := by
  induction nodes generalizing d with
  | nil => rfl
  | cons n ns ih =>
    have step : forEach (n :: ns) f d = forEach ns f (modifyAt f n d) := rfl
    rw [step, ih, attributeAt_modifyAt f hf]

theorem hasClass_modifyAt_add (c : String) (i k : Nat) (d : Document) :
    hasClass (modifyAt (classListAdd c) i d) c k
      = (hasClass d c k || (decide (k = i) && decide (k < d.length))) := by
  unfold hasClass
  rw [getElem?_modifyAt]
  by_cases hk : k = i
  · subst hk
    cases h : d[k]? with
    | none =>
      have : ¬ k < d.length := by
        intro hlt
        rw [List.getElem?_eq_getElem hlt] at h
        exact Option.noConfusion h
      simp [this]
    | some e =>
      have : k < d.length := by
        by_contra hge
        rw [List.getElem?_eq_none (by omega)] at h
        exact Option.noConfusion h
      simp [this, mem_classListAdd]
  · simp [hk]

theorem hasClass_forEach_remove (c : String) (nodes : List Nat) (k : Nat) (d : Document) :
    hasClass (forEach nodes (classListRemove c) d) c k
      = (hasClass d c k && !decide (k ∈ nodes)) := by
  unfold hasClass
  rw [getElem?_forEach _ (classListRemove_idem c)]
  by_cases hk : k ∈ nodes
  · cases d[k]? <;> simp [hk, mem_classListRemove]
  · cases d[k]? <;> simp [hk]

theorem findById_some_lt (key : String) (d : Document) (t : Nat)
    (h : findById key d = some t) : t < d.length := by
  induction d generalizing t with
  | nil => simp [findById] at h
  | cons e es ih =>
    simp only [findById] at h
    split at h
    · cases h; simp
    · cases hr : findById key es with
      | none => simp [hr] at h
      | some r =>
        simp [hr] at h
        subst h
        have := ih r hr
        simp; omega

theorem findById_some_id (key : String) (d : Document) (t : Nat)
    (h : findById key d = some t) : ∃ e, d[t]? = some e ∧ e.id = key := by
  induction d generalizing t with
  | nil => simp [findById] at h
  | cons e es ih =>
    simp only [findById] at h
    split at h
    · rename_i he
      cases h
      exact ⟨e, by simp, he⟩
    · cases hr : findById key es with
      | none => simp [hr] at h
      | some r =>
        simp [hr] at h
        subst h
        simpa using ih r hr

theorem findById_eq_none (key : String) (d : Document) :
    findById key d = none ↔ ∀ e ∈ d, e.id ≠ key := by
  induction d with
  | nil => simp [findById]
  | cons e es ih =>
    simp only [findById]
    split
    · rename_i he
      simp [he]
    · rename_i he
      simp [he, ih]

end DOM

/-! ## Exclusive activation -/

namespace DOM

theorem sectionKey_eq (sel pan : List Nat) (item : Nat) (doc : Document) :
    Dashboard.sectionKey (modifyAt (classListAdd "active") item
      (forEach pan (classListRemove "active") (forEach sel (classListRemove "active") doc))) item
      = Dashboard.sectionKey doc item := by
  simp [Dashboard.sectionKey, attributeAt_modifyAt _ (keepsNames_add _),
    attributeAt_forEach _ (keepsNames_remove _)]

theorem tabKey_eq (sel pan : List Nat) (item : Nat) (doc : Document) :
    Script.tabKey (forEach pan (classListRemove "active") (modifyAt (classListAdd "active") item
      (forEach sel (classListRemove "active") doc))) item
      = Script.tabKey doc item := by
  simp [Script.tabKey, attributeAt_modifyAt _ (keepsNames_add _),
    attributeAt_forEach _ (keepsNames_remove _)]

theorem navItemClick_eq (sel pan : List Nat) (item : Nat) (doc : Document) :
    Dashboard.navItemClick sel pan item doc =
      match getElementById doc (Dashboard.sectionKey doc item) with
      | none =>
        { document := modifyAt (classListAdd "active") item
            (forEach pan (classListRemove "active") (forEach sel (classListRemove "active") doc)),
          completion := Completion.typeError }
      | some t =>
        { document := modifyAt (classListAdd "active") t (modifyAt (classListAdd "active") item
            (forEach pan (classListRemove "active") (forEach sel (classListRemove "active") doc))),
          completion := Completion.normal } := by
  unfold Dashboard.navItemClick
  simp only [sectionKey_eq, getElementById_modifyAt _ (keepsNames_add _),
    getElementById_forEach _ (keepsNames_remove _)]

theorem tabClick_eq (sel pan : List Nat) (item : Nat) (doc : Document) :
    Script.tabClick sel pan item doc =
      match getElementById doc (Script.tabKey doc item) with
      | none =>
        { document := forEach pan (classListRemove "active") (modifyAt (classListAdd "active") item
            (forEach sel (classListRemove "active") doc)),
          completion := Completion.typeError }
      | some t =>
        { document := modifyAt (classListAdd "active") t
            (forEach pan (classListRemove "active") (modifyAt (classListAdd "active") item
              (forEach sel (classListRemove "active") doc))),
          completion := Completion.normal } := by
  unfold Script.tabClick
  simp only [tabKey_eq, getElementById_modifyAt _ (keepsNames_add _),
    getElementById_forEach _ (keepsNames_remove _)]

theorem idAt_modifyAt (f : Element → Element) (hf : KeepsNames f) (i k : Nat) (d : Document) :
    idAt (modifyAt f i d) k = idAt d k := by
  unfold idAt
  rw [getElem?_modifyAt]
  split
  · cases d[k]? <;> simp [(hf _).1]
  · rfl

theorem idAt_forEach (f : Element → Element) (hf : KeepsNames f) (nodes : List Nat) (k : Nat)
    (d : Document) : idAt (forEach nodes f d) k = idAt d k := by
  induction nodes generalizing d with
  | nil => rfl
  | cons n ns ih =>
    have step : forEach (n :: ns) f d = forEach ns f (modifyAt f n d) := rfl
    rw [step, ih, idAt_modifyAt f hf]

theorem getElementById_some (doc : Document) (key : String) (t : Nat)
    (h : getElementById doc key = some t) : t < doc.length ∧ idAt doc t = some key := by
  unfold getElementById at h
  split at h
  · exact Option.noConfusion h
  · refine ⟨findById_some_lt key doc t h, ?_⟩
    obtain ⟨e, he, hid⟩ := findById_some_id key doc t h
    simp [idAt, he, hid]

theorem getElementById_eq_none (doc : Document) (key : String) :
    getElementById doc key = none ↔ ¬ NamesElement doc key := by
  unfold getElementById NamesElement
  split
  · rename_i h
    simp [h]
  · rename_i h
    rw [findById_eq_none]
    simp [h]

/-- C1, as stated, fails: on the sample dashboard the fourth element is a
sidebar item whose `data-section` names no element, and after a click on it no
panel carries `active`. -/
theorem click_without_panel :
    3 ∈ Dashboard.navItems sampleDashboard ∧
      ¬ Activated
        (Group.sidebar.click (Dashboard.navItems sampleDashboard)
          (Dashboard.sections sampleDashboard) 3 sampleDashboard).document
        (Dashboard.navItems sampleDashboard) (Dashboard.sections sampleDashboard) 3
        (Group.sidebar.key sampleDashboard 3) := by
  decide

/-- C1, amended: in either group, for every document and every click on a
selector `item` of the document that is not itself a panel, if `getElementById`
resolves the selector's data attribute to an element `t` that is a panel of the
group and not a selector, then the listener ends normally, `item` is the only
selector carrying `active`, and a panel with the asked-for id (namely `t`) is
the only panel carrying `active`. -/
theorem click_activated (g : Group) (sel pan : List Nat) (item t : Nat) (doc : Document)
    (hitem : item ∈ sel) (hlen : item < doc.length) (hip : item ∉ pan)
    (hfind : getElementById doc (g.key doc item) = some t) (htp : t ∈ pan) (hts : t ∉ sel) :
    (g.click sel pan item doc).completion = Completion.normal ∧
      Activated (g.click sel pan item doc).document sel pan item (g.key doc item) := by
  obtain ⟨htlen, htid⟩ := getElementById_some doc _ t hfind
  cases g with
  | sidebar =>
    simp only [Group.key] at hfind htid
    simp only [Group.click, Group.key, navItemClick_eq, hfind]
    refine ⟨trivial, ?_, t, htp, ?_, ?_⟩
    · intro j hj
      simp only [hasClass_modifyAt_add, hasClass_forEach_remove, length_modifyAt, length_forEach]
      by_cases hji : j = item
      · subst hji; simp [hlen]
      · have hjt : j ≠ t := fun h => hts (h ▸ hj)
        simp [hji, hjt, hj]
    · simp only [idAt_modifyAt _ (keepsNames_add _), idAt_forEach _ (keepsNames_remove _), htid]
    · intro j hj
      simp only [hasClass_modifyAt_add, hasClass_forEach_remove, length_modifyAt, length_forEach]
      by_cases hjt : j = t
      · subst hjt; simp [htlen]
      · have hji : j ≠ item := fun h => hip (h ▸ hj)
        simp [hji, hjt, hj]
  | tabs =>
    simp only [Group.key] at hfind htid
    simp only [Group.click, Group.key, tabClick_eq, hfind]
    refine ⟨trivial, ?_, t, htp, ?_, ?_⟩
    · intro j hj
      simp only [hasClass_modifyAt_add, hasClass_forEach_remove, length_modifyAt, length_forEach]
      by_cases hji : j = item
      · subst hji; simp [hlen, hip]
      · have hjt : j ≠ t := fun h => hts (h ▸ hj)
        simp [hji, hjt, hj]
    · simp only [idAt_modifyAt _ (keepsNames_add _), idAt_forEach _ (keepsNames_remove _), htid]
    · intro j hj
      simp only [hasClass_modifyAt_add, hasClass_forEach_remove, length_modifyAt, length_forEach]
      by_cases hjt : j = t
      · subst hjt; simp [htlen]
      · simp [hjt, hj]

theorem click_activated_witness :
    (2 ∈ Dashboard.navItems sampleDashboard ∧ 2 < sampleDashboard.length ∧
        2 ∉ Dashboard.sections sampleDashboard ∧
        getElementById sampleDashboard (Group.sidebar.key sampleDashboard 2) = some 6 ∧
        6 ∈ Dashboard.sections sampleDashboard ∧ 6 ∉ Dashboard.navItems sampleDashboard) ∧
      ((Group.sidebar.click (Dashboard.navItems sampleDashboard)
          (Dashboard.sections sampleDashboard) 2 sampleDashboard).completion = Completion.normal ∧
        Activated
          (Group.sidebar.click (Dashboard.navItems sampleDashboard)
            (Dashboard.sections sampleDashboard) 2 sampleDashboard).document
          (Dashboard.navItems sampleDashboard) (Dashboard.sections sampleDashboard) 2
          (Group.sidebar.key sampleDashboard 2)) ∧
      ((Group.tabs.click (Script.tabs sampleTabs) (Script.sections sampleTabs) 1
          sampleTabs).completion = Completion.normal ∧
        Activated
          (Group.tabs.click (Script.tabs sampleTabs) (Script.sections sampleTabs) 1
            sampleTabs).document
          (Script.tabs sampleTabs) (Script.sections sampleTabs) 1 (Group.tabs.key sampleTabs 1)) :=
  ⟨by decide,
   click_activated Group.sidebar (Dashboard.navItems sampleDashboard)
     (Dashboard.sections sampleDashboard) 2 6 sampleDashboard
     (by decide) (by decide) (by decide) (by decide) (by decide) (by decide),
   click_activated Group.tabs (Script.tabs sampleTabs) (Script.sections sampleTabs) 1 4 sampleTabs
     (by decide) (by decide) (by decide) (by decide) (by decide) (by decide)⟩

/-- C10, as stated, fails: on the sample dashboard the fifth element is a
sidebar item whose `data-section` is the id of the theme button; no panel has
that id, and yet the click ends normally. -/
theorem click_on_foreign_id :
    4 ∈ Dashboard.navItems sampleDashboard ∧
      ¬ ((Group.sidebar.click (Dashboard.navItems sampleDashboard)
            (Dashboard.sections sampleDashboard) 4 sampleDashboard).completion
            = Completion.typeError ↔
          ¬ NamesPanel sampleDashboard (Dashboard.sections sampleDashboard)
            (Group.sidebar.key sampleDashboard 4)) := by
  decide

/-- C10, amended: in either group, for every document and every click on a
selector `item` of the document that is not itself a panel, the listener ends
with a `TypeError` if and only if no element of the whole document has the id
the selector's data attribute asks for. When it ends so, `item` is the only
selector carrying `active` and no panel carries `active`. When some element
has that id, the first such element, panel or not, carries `active` after the
click. -/
theorem click_fault (g : Group) (sel pan : List Nat) (item : Nat) (doc : Document)
    (hitem : item ∈ sel) (hlen : item < doc.length) (hip : item ∉ pan) :
    ((g.click sel pan item doc).completion = Completion.typeError ↔
        ¬ NamesElement doc (g.key doc item)) ∧
      ((g.click sel pan item doc).completion = Completion.typeError →
        OnlyActive (g.click sel pan item doc).document sel item ∧
          NoneActive (g.click sel pan item doc).document pan) ∧
      (NamesElement doc (g.key doc item) →
        ∃ t, getElementById doc (g.key doc item) = some t ∧
          idAt (g.click sel pan item doc).document t = some (g.key doc item) ∧
          hasClass (g.click sel pan item doc).document "active" t = true) := by
  cases g with
  | sidebar =>
    simp only [Group.click, Group.key, navItemClick_eq]
    cases hfind : getElementById doc (Dashboard.sectionKey doc item) with
    | some t =>
      have hnames :=
        (getElementById_eq_none doc (Dashboard.sectionKey doc item)).not.mp (by simp [hfind])
      obtain ⟨htlen, htid⟩ := getElementById_some doc _ t hfind
      refine ⟨by simp [hnames], by simp, fun _ => ⟨t, rfl, ?_, ?_⟩⟩
      · simp only [idAt_modifyAt _ (keepsNames_add _), idAt_forEach _ (keepsNames_remove _), htid]
      · simp only [hasClass_modifyAt_add, length_modifyAt, length_forEach]
        simp [htlen]
    | none =>
      have hnames := (getElementById_eq_none doc (Dashboard.sectionKey doc item)).mp hfind
      refine ⟨by simp [hnames], fun _ => ⟨?_, ?_⟩, fun h => absurd h hnames⟩
      · intro j hj
        simp only [hasClass_modifyAt_add, hasClass_forEach_remove, length_modifyAt,
          length_forEach]
        by_cases hji : j = item
        · subst hji; simp [hlen]
        · simp [hji, hj]
      · intro j hj
        simp only [hasClass_modifyAt_add, hasClass_forEach_remove, length_modifyAt,
          length_forEach]
        have hji : j ≠ item := fun h => hip (h ▸ hj)
        simp [hji, hj]
  | tabs =>
    simp only [Group.click, Group.key, tabClick_eq]
    cases hfind : getElementById doc (Script.tabKey doc item) with
    | some t =>
      have hnames :=
        (getElementById_eq_none doc (Script.tabKey doc item)).not.mp (by simp [hfind])
      obtain ⟨htlen, htid⟩ := getElementById_some doc _ t hfind
      refine ⟨by simp [hnames], by simp, fun _ => ⟨t, rfl, ?_, ?_⟩⟩
      · simp only [idAt_modifyAt _ (keepsNames_add _), idAt_forEach _ (keepsNames_remove _), htid]
      · simp only [hasClass_modifyAt_add, length_modifyAt, length_forEach]
        simp [htlen]
    | none =>
      have hnames := (getElementById_eq_none doc (Script.tabKey doc item)).mp hfind
      refine ⟨by simp [hnames], fun _ => ⟨?_, ?_⟩, fun h => absurd h hnames⟩
      · intro j hj
        simp only [hasClass_modifyAt_add, hasClass_forEach_remove, length_modifyAt,
          length_forEach]
        by_cases hji : j = item
        · subst hji; simp [hlen, hip]
        · simp [hji, hj]
      · intro j hj
        simp only [hasClass_modifyAt_add, hasClass_forEach_remove, length_modifyAt,
          length_forEach]
        simp [hj]

theorem click_fault_witness :
    ((2 ∈ Script.tabs sampleTabs ∧ 2 < sampleTabs.length ∧ 2 ∉ Script.sections sampleTabs) ∧
      ((Group.tabs.click (Script.tabs sampleTabs) (Script.sections sampleTabs) 2
            sampleTabs).completion = Completion.typeError ∧
        ¬ NamesElement sampleTabs (Group.tabs.key sampleTabs 2)) ∧
      OnlyActive
        (Group.tabs.click (Script.tabs sampleTabs) (Script.sections sampleTabs) 2
          sampleTabs).document (Script.tabs sampleTabs) 2 ∧
      NoneActive
        (Group.tabs.click (Script.tabs sampleTabs) (Script.sections sampleTabs) 2
          sampleTabs).document (Script.sections sampleTabs)) ∧
    ((4 ∈ Dashboard.navItems sampleDashboard ∧ 4 < sampleDashboard.length ∧
        4 ∉ Dashboard.sections sampleDashboard ∧
        NamesElement sampleDashboard (Group.sidebar.key sampleDashboard 4)) ∧
      (∃ t, getElementById sampleDashboard (Group.sidebar.key sampleDashboard 4) = some t ∧
        idAt (Group.sidebar.click (Dashboard.navItems sampleDashboard)
            (Dashboard.sections sampleDashboard) 4 sampleDashboard).document t
          = some (Group.sidebar.key sampleDashboard 4) ∧
        hasClass (Group.sidebar.click (Dashboard.navItems sampleDashboard)
            (Dashboard.sections sampleDashboard) 4 sampleDashboard).document "active" t = true) ∧
      (7 ∉ Dashboard.sections sampleDashboard ∧
        getElementById sampleDashboard (Group.sidebar.key sampleDashboard 4) = some 7 ∧
        hasClass sampleDashboard "active" 7 = false ∧
        hasClass (Group.sidebar.click (Dashboard.navItems sampleDashboard)
            (Dashboard.sections sampleDashboard) 4 sampleDashboard).document "active" 7 = true ∧
        (Group.sidebar.click (Dashboard.navItems sampleDashboard)
            (Dashboard.sections sampleDashboard) 4 sampleDashboard).completion
          = Completion.normal)) :=
  have h := click_fault Group.tabs (Script.tabs sampleTabs) (Script.sections sampleTabs) 2
    sampleTabs (by decide) (by decide) (by decide)
  have k := click_fault Group.sidebar (Dashboard.navItems sampleDashboard)
    (Dashboard.sections sampleDashboard) 4 sampleDashboard (by decide) (by decide) (by decide)
  ⟨⟨by decide, ⟨by decide, h.1.mp (by decide)⟩, h.2.1 (by decide)⟩,
   ⟨by decide, k.2.2 (by decide), by decide⟩⟩

end DOM

/-! ## The node lists do not change -/

namespace DOM

theorem keepsShape_add : KeepsShape (classListAdd "active") := by
  intro e
  refine ⟨?_, ?_, ?_⟩
  · unfold classListAdd; split <;> rfl
  · unfold classListAdd; split <;> rfl
  · intro c hc
    rw [mem_classListAdd]
    simp [hc]

theorem keepsShape_remove : KeepsShape (classListRemove "active") := by
  intro e
  refine ⟨rfl, rfl, ?_⟩
  intro c hc
  rw [mem_classListRemove]
  simp [hc]

theorem hasClass_modifyAt_other (f : Element → Element) (hf : KeepsShape f) (c : String)
    (hc : c ≠ "active") (i k : Nat) (d : Document) :
    hasClass (modifyAt f i d) c k = hasClass d c k := by
  unfold hasClass
  rw [getElem?_modifyAt]
  by_cases hk : k = i
  · cases d[k]? with
    | none => simp [hk]
    | some e => simp [hk, (hf e).2.2 c hc]
  · simp [hk]

theorem selectsElement_modifyAt (f : Element → Element) (hf : KeepsShape f) (s : Selector)
    (hs : s.className ≠ "active") (i : Nat) (d : Document) (e : Element) :
    selectsElement (modifyAt f i d) s e = selectsElement d s e ∧
      selectsElement d s (f e) = selectsElement d s e := by
  cases s with
  | byClass c =>
    simp only [Selector.className] at hs
    simp [selectsElement, (hf e).2.2 c hs]
  | descendant c tag =>
    simp only [Selector.className] at hs
    have hfun : (fun a => hasClass (modifyAt f i d) c a) = (fun a => hasClass d c a) :=
      funext (fun a => hasClass_modifyAt_other f hf c hs i a d)
    simp only [selectsElement, hfun, (hf e).1, (hf e).2.1, and_self]

theorem selects_modifyAt (f : Element → Element) (hf : KeepsShape f) (s : Selector)
    (hs : s.className ≠ "active") (i k : Nat) (d : Document) :
    selects (modifyAt f i d) s k = selects d s k := by
  unfold selects
  rw [getElem?_modifyAt]
  by_cases hk : k = i
  · cases d[k]? with
    | none => simp [hk]
    | some e =>
      simp only [hk, if_true, Option.map_some']
      rw [(selectsElement_modifyAt f hf s hs i d (f e)).1, (selectsElement_modifyAt f hf s hs i d e).2]
  · cases d[k]? with
    | none => simp [hk]
    | some e =>
      simp only [hk, if_false]
      exact (selectsElement_modifyAt f hf s hs i d e).1

theorem querySelectorAll_modifyAt (f : Element → Element) (hf : KeepsShape f) (s : Selector)
    (hs : s.className ≠ "active") (i : Nat) (d : Document) :
    querySelectorAll (modifyAt f i d) s = querySelectorAll d s := by
  unfold querySelectorAll
  rw [length_modifyAt]
  exact List.filter_congr (fun k _ => selects_modifyAt f hf s hs i k d)

theorem querySelectorAll_forEach (f : Element → Element) (hf : KeepsShape f) (s : Selector)
    (hs : s.className ≠ "active") (nodes : List Nat) (d : Document) :
    querySelectorAll (forEach nodes f d) s = querySelectorAll d s := by
  induction nodes generalizing d with
  | nil => rfl
  | cons n ns ih =>
    have step : forEach (n :: ns) f d = forEach ns f (modifyAt f n d) := rfl
    rw [step, ih, querySelectorAll_modifyAt f hf s hs]

/-- A click changes no node list whose selector does not mention `active`: the
lists the scripts take at load time stay the lists of the page. -/
theorem querySelectorAll_click (g : Group) (sel pan : List Nat) (item : Nat) (doc : Document)
    (s : Selector) (hs : s.className ≠ "active") :
    querySelectorAll (g.click sel pan item doc).document s = querySelectorAll doc s := by
  cases g with
  | sidebar =>
    simp only [Group.click, navItemClick_eq]
    cases getElementById doc (Dashboard.sectionKey doc item) <;>
      simp only [querySelectorAll_modifyAt _ keepsShape_add s hs,
        querySelectorAll_forEach _ keepsShape_remove s hs]
  | tabs =>
    simp only [Group.click, tabClick_eq]
    cases getElementById doc (Script.tabKey doc item) <;>
      simp only [querySelectorAll_modifyAt _ keepsShape_add s hs,
        querySelectorAll_forEach _ keepsShape_remove s hs]

theorem selectors_click (g : Group) (sel pan : List Nat) (item : Nat) (doc : Document) :
    g.selectors (g.click sel pan item doc).document = g.selectors doc ∧
      g.panels (g.click sel pan item doc).document = g.panels doc := by
  cases g with
  | sidebar =>
    exact ⟨querySelectorAll_click Group.sidebar sel pan item doc _ (by decide),
      querySelectorAll_click Group.sidebar sel pan item doc _ (by decide)⟩
  | tabs =>
    exact ⟨querySelectorAll_click Group.tabs sel pan item doc _ (by decide),
      querySelectorAll_click Group.tabs sel pan item doc _ (by decide)⟩

theorem lt_length_of_mem_querySelectorAll (doc : Document) (s : Selector) (k : Nat)
    (h : k ∈ querySelectorAll doc s) : k < doc.length := by
  unfold querySelectorAll at h
  exact List.mem_range.mp (List.mem_filter.mp h).1

end DOM

/-! ## The login page -/

namespace Login

theorem getItem_setItem (key value : String) (storage : List (String × String)) :
    getItem key (setItem key value storage) = some value := by
  induction storage with
  | nil => simp [setItem, getItem]
  | cons kv rest ih =>
    unfold setItem
    split
    · simp [getItem]
    · rename_i h
      simpa [getItem, h] using ih

theorem submit_empty (emailField passwordField : String) (net : FetchResult) (b : Browser)
    (h : trim emailField = "" ∨ trim passwordField = "") :
    submit emailField passwordField net b =
      { b with
        alerts := b.alerts ++ ["❌ Please fill in all fields."],
        navigations := b.navigations ++ ["home/dashboard.js"],
        defaultPrevented := true } := by
  simp [submit, firstListenerStart, h, secondListener, alert, navigate]

theorem submit_filled (emailField passwordField : String) (net : FetchResult) (b : Browser)
    (h : ¬ (trim emailField = "" ∨ trim passwordField = "")) :
    submit emailField passwordField net b =
      firstListenerResume net
        { b with
          requests := b.requests ++ [loginRequest (trim emailField) (trim passwordField)],
          navigations := b.navigations ++ ["home/dashboard.js"],
          defaultPrevented := true } := by
  simp [submit, firstListenerStart, h, secondListener, navigate]

theorem requests_afterResponse (res : Response) (b : Browser) :
    (afterResponse res b).1.requests = b.requests := by
  unfold afterResponse
  repeat' split
  all_goals rfl

theorem requests_firstListenerResume (net : FetchResult) (b : Browser) :
    (firstListenerResume net b).requests = b.requests := by
  cases net with
  | pending => rfl
  | rejected => rfl
  | fulfilled res =>
    have h := requests_afterResponse res b
    simp only [firstListenerResume]
    cases hr : afterResponse res b with
    | mk b1 e =>
      rw [hr] at h
      cases e with
      | none => exact h
      | some err => exact h

theorem getProp_ok_of_ok (data v : JsValue) (name other : String)
    (h : getProp data name = Except.ok v) : ∃ w, getProp data other = Except.ok w := by
  cases data with
  | undefined => simp [getProp] at h
  | null => simp [getProp] at h
  | boolean b => exact ⟨_, rfl⟩
  | number shown => exact ⟨_, rfl⟩
  | string s => exact ⟨_, rfl⟩
  | array items => exact ⟨_, rfl⟩
  | object fields =>
    simp only [getProp]
    cases fields.find? (fun kv => decide (kv.1 = other)) with
    | none => exact ⟨_, rfl⟩
    | some kv => exact ⟨_, rfl⟩

theorem head?_dropWhile_false (p : Char → Bool) (l : List Char) (c : Char)
    (h : (l.dropWhile p).head? = some c) : p c = false := by
  induction l with
  | nil => simp at h
  | cons a as ih =>
    rw [List.dropWhile_cons] at h
    split at h
    · exact ih h
    · rename_i hp
      simp at h
      subst h
      simpa using hp

theorem trim_isTrimOf (s : String) : IsTrimOf s (trim s) := by
  let m := s.data.dropWhile isTrimmed
  have h2 : m = (m.reverse.dropWhile isTrimmed).reverse
      ++ (m.reverse.takeWhile isTrimmed).reverse := by
    rw [← List.reverse_append, List.takeWhile_append_dropWhile, List.reverse_reverse]
  refine ⟨s.data.takeWhile isTrimmed, (m.reverse.takeWhile isTrimmed).reverse, ?_, ?_, ?_, ?_, ?_⟩
  · have h1 : s.data = s.data.takeWhile isTrimmed ++ m :=
      (List.takeWhile_append_dropWhile _ _).symm
    show s.data = s.data.takeWhile isTrimmed ++ (m.reverse.dropWhile isTrimmed).reverse
      ++ (m.reverse.takeWhile isTrimmed).reverse
    rw [List.append_assoc, ← h2]
    exact h1
  · intro c hc
    exact List.mem_takeWhile_imp hc
  · intro c hc
    exact List.mem_takeWhile_imp (List.mem_reverse.mp hc)
  · intro c hc
    have hc2 : ((m.reverse.dropWhile isTrimmed).reverse).head? = some c := hc
    have hm : m.head? = some c := by
      rw [h2, List.head?_append, hc2]
      rfl
    exact head?_dropWhile_false isTrimmed s.data c hm
  · intro c hc
    have hc2 : ((m.reverse.dropWhile isTrimmed).reverse).getLast? = some c := hc
    rw [List.getLast?_reverse] at hc2
    exact head?_dropWhile_false isTrimmed m.reverse c hc2

theorem expect_append (lit l : List Char) : expect lit (lit ++ l) = some l := by
  induction lit with
  | nil => cases l <;> rfl
  | cons c cs ih => simp [expect, ih]

theorem escapedChar_hexDigit (n : Nat) (h : n < 0x20) :
    escapedChar '0' '0' (hexDigit (n / 16)) (hexDigit (n % 16)) = some (Char.ofNat n) := by
  interval_cases n <;> decide

theorem readChars_escape (x ch : Char) (tail : List Char) (hx : x ≠ 'u')
    (h : unescape x = some ch) :
    readChars ('\\' :: x :: tail) = consRead ch (readChars tail) := by
  rw [readChars.eq_def]
  simp [hx, h]

theorem readChars_quoteChar (c : Char) (tail : List Char) :
    readChars (quoteChar c ++ tail) = consRead c (readChars tail) := by
  unfold quoteChar
  split
  · rename_i h; subst h
    exact readChars_escape _ _ tail (by decide) (by decide)
  split
  · rename_i h; subst h
    exact readChars_escape _ _ tail (by decide) (by decide)
  split
  · rename_i h
    have hc : c = Char.ofNat 0x08 := by rw [← h, Char.ofNat_toNat]
    subst hc
    exact readChars_escape _ _ tail (by decide) (by decide)
  split
  · rename_i h
    have hc : c = Char.ofNat 0x09 := by rw [← h, Char.ofNat_toNat]
    subst hc
    exact readChars_escape _ _ tail (by decide) (by decide)
  split
  · rename_i h
    have hc : c = Char.ofNat 0x0A := by rw [← h, Char.ofNat_toNat]
    subst hc
    exact readChars_escape _ _ tail (by decide) (by decide)
  split
  · rename_i h
    have hc : c = Char.ofNat 0x0C := by rw [← h, Char.ofNat_toNat]
    subst hc
    exact readChars_escape _ _ tail (by decide) (by decide)
  split
  · rename_i h
    have hc : c = Char.ofNat 0x0D := by rw [← h, Char.ofNat_toNat]
    subst hc
    exact readChars_escape _ _ tail (by decide) (by decide)
  split
  · rename_i h
    have hx := escapedChar_hexDigit c.toNat h
    show readChars ('\\' :: 'u' :: '0' :: '0' :: hexDigit (c.toNat / 16)
      :: hexDigit (c.toNat % 16) :: tail) = _
    rw [readChars.eq_def]
    simp [hx, Char.ofNat_toNat]
  · rename_i h1 h2 _ _ _ _ _ h8
    show readChars (c :: tail) = _
    rw [readChars.eq_def]
    simp [h1, h2, h8]

theorem readChars_quoted (s rest : List Char) :
    readChars (s.flatMap quoteChar ++ '"' :: rest) = some (s, rest) := by
  induction s with
  | nil =>
    rw [List.flatMap_nil, List.nil_append, readChars.eq_def]
    simp
  | cons c cs ih =>
    rw [List.flatMap_cons, List.append_assoc, readChars_quoteChar, ih]
    rfl

theorem readJSONString_quoted (s : String) (rest : List Char) :
    readJSONString ((quoteJSONString s).data ++ rest) = some (s.data, rest) := by
  simp [quoteJSONString, readJSONString, readChars_quoted]

theorem readCredentials_stringify (email password : String) :
    readCredentials (stringifyCredentials email password) = some (email, password) := by
  unfold readCredentials stringifyCredentials
  simp only [String.data_append, List.append_assoc, expect_append, readJSONString_quoted]
  simp

/-- C2: the trimmed identifier and the trimmed secret are the two fields without
the white space at their ends. If either is empty, a submit shows the
validation notification and hands nothing to `fetch`; otherwise it hands
`fetch` exactly one request: a POST to the fixed `/login` address, with the JSON
content type as its only header, and with a body that a JSON reader reads as
the object whose `email` is the trimmed identifier and whose `password` is the
trimmed secret. This holds whatever becomes of the request. -/
theorem submit_validates_then_posts (emailField passwordField : String) (net : FetchResult)
    (b : Browser) :
    (IsTrimOf emailField (trim emailField) ∧ IsTrimOf passwordField (trim passwordField)) ∧
    ((trim emailField = "" ∨ trim passwordField = "") →
        (submit emailField passwordField net b).alerts
            = b.alerts ++ ["❌ Please fill in all fields."] ∧
          (submit emailField passwordField net b).requests = b.requests) ∧
      ((trim emailField ≠ "" ∧ trim passwordField ≠ "") →
        ∃ body : String,
          (submit emailField passwordField net b).requests
            = b.requests ++
                [{ url := "http://127.0.0.1:5000/login", method := "POST",
                   headers := [("Content-Type", "application/json")], body := body }] ∧
          readCredentials body = some (trim emailField, trim passwordField)) := by
  refine ⟨⟨trim_isTrimOf emailField, trim_isTrimOf passwordField⟩, ?_, ?_⟩
  · intro h
    rw [submit_empty emailField passwordField net b h]
    exact ⟨rfl, rfl⟩
  · intro h
    have h2 : ¬ (trim emailField = "" ∨ trim passwordField = "") := by
      rintro (h1 | h1)
      · exact h.1 h1
      · exact h.2 h1
    refine ⟨stringifyCredentials (trim emailField) (trim passwordField), ?_,
      readCredentials_stringify _ _⟩
    rw [submit_filled emailField passwordField net b h2, requests_firstListenerResume]
    rfl

theorem submit_validates_then_posts_witness :
    ((submit "  " "pw" FetchResult.pending freshBrowser).alerts
          = freshBrowser.alerts ++ ["❌ Please fill in all fields."] ∧
        (submit "  " "pw" FetchResult.pending freshBrowser).requests = freshBrowser.requests) ∧
      (∃ body : String,
        (submit " a@b.com " "p\"w\n" (FetchResult.fulfilled sampleRefused) freshBrowser).requests
          = freshBrowser.requests ++
              [{ url := "http://127.0.0.1:5000/login", method := "POST",
                 headers := [("Content-Type", "application/json")], body := body }] ∧
        readCredentials body = some (trim " a@b.com ", trim "p\"w\n")) ∧
      (submit " a@b.com " "p\"w\n" (FetchResult.fulfilled sampleRefused) freshBrowser).requests
        = [{ url := "http://127.0.0.1:5000/login", method := "POST",
             headers := [("Content-Type", "application/json")],
             body := "\x7b\"email\":\"a@b.com\",\"password\":\"p\\\"w\"\x7d" }] ∧
      trim " a@b.com " = "a@b.com" ∧ trim "p\"w\n" = "p\"w" :=
  ⟨(submit_validates_then_posts "  " "pw" FetchResult.pending freshBrowser).2.1 (by decide),
   (submit_validates_then_posts " a@b.com " "p\"w\n" (FetchResult.fulfilled sampleRefused)
      freshBrowser).2.2 (by decide),
   by decide, by decide, by decide⟩

/-- C3: when the credentials are not empty and the request is answered with a
success status and a body whose `email` field is a string, then after the
submit the storage holds that string under `userEmail` and the last value
assigned to `window.location.href` is `home/dashboard.html`. -/
theorem submit_accepted (emailField passwordField : String) (res : Response) (data : JsValue)
    (identity : String) (b : Browser)
    (hcred : trim emailField ≠ "" ∧ trim passwordField ≠ "")
    (hok : res.ok = true) (hjson : res.json = some data)
    (hid : getProp data "email" = Except.ok (JsValue.string identity)) :
    getItem "userEmail"
        (submit emailField passwordField (FetchResult.fulfilled res) b).localStorage
        = some identity ∧
      (submit emailField passwordField (FetchResult.fulfilled res) b).navigations.getLast?
        = some "home/dashboard.html" := by
  have h2 : ¬ (trim emailField = "" ∨ trim passwordField = "") := by
    rintro (h1 | h1)
    · exact hcred.1 h1
    · exact hcred.2 h1
  obtain ⟨message, hmsg⟩ := getProp_ok_of_ok data _ "email" "message" hid
  rw [submit_filled emailField passwordField _ b h2]
  simp [firstListenerResume, afterResponse, hok, hjson, hid, hmsg, navigate, alert,
    JsValue.toJsString, getItem_setItem]

theorem submit_accepted_witness :
    (trim "a@b.com" ≠ "" ∧ trim "pw" ≠ "") ∧
      getItem "userEmail"
          (submit "a@b.com" "pw" (FetchResult.fulfilled sampleAccepted) freshBrowser).localStorage
          = some "a@b.com" ∧
      (submit "a@b.com" "pw" (FetchResult.fulfilled sampleAccepted) freshBrowser).navigations.getLast?
        = some "home/dashboard.html" :=
  ⟨by decide,
   submit_accepted "a@b.com" "pw" sampleAccepted _ "a@b.com" freshBrowser (by decide) rfl rfl rfl⟩

/-- C4, as stated, fails: for the body `{"error":"bad credentials"}` the text
of the notification is "❌ bad credentials", not "bad credentials". -/
theorem submit_refused_text_differs :
    (submit "a@b.com" "pw" (FetchResult.fulfilled sampleRefused) freshBrowser).alerts
        = ["❌ bad credentials"] ∧
      ¬ (submit "a@b.com" "pw" (FetchResult.fulfilled sampleRefused) freshBrowser).alerts
        = ["bad credentials"] := by
  decide

/-- C4, amended: when the credentials are not empty and the request is answered
with a failure status and a body whose `error` field is the string `msg`, the
submit leaves the storage unchanged and shows exactly one notification, whose
text is "❌ " followed by `msg`. -/
theorem submit_refused (emailField passwordField : String) (res : Response) (data : JsValue)
    (msg : String) (b : Browser)
    (hcred : trim emailField ≠ "" ∧ trim passwordField ≠ "")
    (hok : res.ok = false) (hjson : res.json = some data)
    (herr : getProp data "error" = Except.ok (JsValue.string msg)) :
    (submit emailField passwordField (FetchResult.fulfilled res) b).localStorage = b.localStorage ∧
      (submit emailField passwordField (FetchResult.fulfilled res) b).alerts
        = b.alerts ++ ["❌ " ++ msg] := by
  have h2 : ¬ (trim emailField = "" ∨ trim passwordField = "") := by
    rintro (h1 | h1)
    · exact hcred.1 h1
    · exact hcred.2 h1
  rw [submit_filled emailField passwordField _ b h2]
  simp [firstListenerResume, afterResponse, hok, hjson, herr, alert, JsValue.toJsString]

theorem submit_refused_witness :
    (trim "a@b.com" ≠ "" ∧ trim "pw" ≠ "") ∧
      (submit "a@b.com" "pw" (FetchResult.fulfilled sampleRefused) freshBrowser).localStorage
        = freshBrowser.localStorage ∧
      (submit "a@b.com" "pw" (FetchResult.fulfilled sampleRefused) freshBrowser).alerts
        = freshBrowser.alerts ++ ["❌ " ++ "bad credentials"] :=
  ⟨by decide,
   submit_refused "a@b.com" "pw" sampleRefused _ "bad credentials" freshBrowser (by decide)
     rfl rfl rfl⟩

theorem submit_rejected (emailField passwordField : String) (b : Browser)
    (hcred : trim emailField ≠ "" ∧ trim passwordField ≠ "") :
    submit emailField passwordField FetchResult.rejected b =
      { b with
        requests := b.requests ++ [loginRequest (trim emailField) (trim passwordField)],
        navigations := b.navigations ++ ["home/dashboard.js"],
        alerts := b.alerts ++ ["⚠️ Server error, try again later."],
        console := b.console ++ [JsError.networkError],
        defaultPrevented := true } := by
  have h2 : ¬ (trim emailField = "" ∨ trim passwordField = "") := by
    rintro (h1 | h1)
    · exact hcred.1 h1
    · exact hcred.2 h1
  rw [submit_filled emailField passwordField _ b h2]
  rfl

/-- C8, on the code: with the credentials "a@b.com" and "pw" and a request that
fails at transport level, the submit shows the server notification, leaves the
storage empty and sends one request, but it also assigns `home/dashboard.js` to
`window.location.href` (the second listener). -/
theorem submit_unreachable_navigates :
    submit "a@b.com" "pw" FetchResult.rejected freshBrowser =
      { localStorage := [],
        navigations := ["home/dashboard.js"],
        alerts := ["⚠️ Server error, try again later."],
        requests := [loginRequest "a@b.com" "pw"],
        console := [JsError.networkError],
        defaultPrevented := true } := by
  decide

/-- C7: a banner element that shows `shown` keeps that text when the storage has
no `userEmail` or an empty one, and shows "👋 Welcome, " followed by the stored
value when that value is not empty. -/
theorem banner_shows_identity (storage : List (String × String)) (shown : String) :
    ((getItem "userEmail" storage = none ∨ getItem "userEmail" storage = some "") →
        onDOMContentLoaded storage (some shown) = Except.ok (some shown)) ∧
      (∀ v : String, getItem "userEmail" storage = some v → v ≠ "" →
        onDOMContentLoaded storage (some shown) = Except.ok (some ("👋 Welcome, " ++ v))) := by
  constructor
  · rintro (h | h) <;> simp [onDOMContentLoaded, h]
  · intro v h hv
    simp [onDOMContentLoaded, h, hv]

theorem banner_shows_identity_witness :
    onDOMContentLoaded [] (some "Welcome") = Except.ok (some "Welcome") ∧
      onDOMContentLoaded [("theme", "dark"), ("userEmail", "a@b.com")] (some "Welcome")
        = Except.ok (some ("👋 Welcome, " ++ "a@b.com")) :=
  ⟨(banner_shows_identity [] "Welcome").1 (Or.inl rfl),
   (banner_shows_identity [("theme", "dark"), ("userEmail", "a@b.com")] "Welcome").2 "a@b.com"
     (by decide) (by decide)⟩

end Login

/-! ## The dashboard forms -/

namespace Dashboard

/-- C5: on a page whose task list holds `entries` and whose task field holds the
non-empty value `v`, a submit of the task form ends normally, leaves the list
as `entries` followed by the one new entry `v`, and leaves the field empty. -/
theorem taskSubmit_appends (p : Forms) (entries : List String) (v : String)
    (hlist : p.taskList = some entries) (hinput : p.taskInput = some v) (_hv : v ≠ "") :
    (taskSubmit p).page.taskList = some (entries ++ [v]) ∧
      (taskSubmit p).page.taskInput = some "" ∧
      (taskSubmit p).completion = DOM.Completion.normal := by
  simp [taskSubmit, hlist, hinput, taskFormReset]

theorem taskSubmit_appends_witness :
    (taskSubmit (sampleForms "" "" "" "Book room")).page.taskList
        = some (["Write agenda", "Send invites"] ++ ["Book room"]) ∧
      (taskSubmit (sampleForms "" "" "" "Book room")).page.taskInput = some "" ∧
      (taskSubmit (sampleForms "" "" "" "Book room")).completion = DOM.Completion.normal :=
  taskSubmit_appends (sampleForms "" "" "" "Book room") ["Write agenda", "Send invites"]
    "Book room" rfl rfl (by decide)

/-- C6: on a page whose schedule list holds `entries` and whose meeting fields
hold `title`, `date` and `time`, a submit of the schedule form leaves the list
as `entries` followed by the one new entry `title — date at time`. -/
theorem scheduleSubmit_appends (p : Forms) (entries : List String) (title date time : String)
    (hlist : p.scheduleList = some entries) (htitle : p.meetingTitle = some title)
    (hdate : p.meetingDate = some date) (htime : p.meetingTime = some time) :
    (scheduleSubmit p).page.scheduleList
      = some (entries ++ [title ++ " — " ++ date ++ " at " ++ time]) := by
  simp [scheduleSubmit, hlist, htitle, hdate, htime, scheduleFormReset, scheduleText]

theorem scheduleSubmit_appends_witness :
    (scheduleSubmit (sampleForms "Standup" "2024-01-01" "09:00" "")).page.scheduleList
        = some (["Kickoff — 2023-12-31 at 10:00"]
            ++ ["Standup" ++ " — " ++ "2024-01-01" ++ " at " ++ "09:00"]) ∧
      "Standup" ++ " — " ++ "2024-01-01" ++ " at " ++ "09:00" = "Standup — 2024-01-01 at 09:00" :=
  ⟨scheduleSubmit_appends (sampleForms "Standup" "2024-01-01" "09:00" "")
     ["Kickoff — 2023-12-31 at 10:00"] "Standup" "2024-01-01" "09:00" rfl rfl rfl rfl,
   by decide⟩

/-- C9, as stated, fails: a submit of the task form with an empty field makes
the list one entry longer. -/
theorem taskSubmit_empty_changes_list :
    (sampleForms "" "" "" "").taskInput = some "" ∧
      (taskSubmit (sampleForms "" "" "" "")).page.taskList
        = some ["Write agenda", "Send invites", ""] ∧
      (taskSubmit (sampleForms "" "" "" "")).page.taskList ≠ (sampleForms "" "" "" "").taskList := by
  decide

/-- C9, amended: the listeners do not look at the values. A submit of the task
form with an empty field appends one entry with the empty text, and a submit of
the schedule form with three empty fields appends the entry " —  at ". -/
theorem submit_empty_appends (p : Forms) :
    (∀ entries : List String, p.taskList = some entries → p.taskInput = some "" →
        (taskSubmit p).page.taskList = some (entries ++ [""])) ∧
      (∀ entries : List String, p.scheduleList = some entries → p.meetingTitle = some "" →
        p.meetingDate = some "" → p.meetingTime = some "" →
        (scheduleSubmit p).page.scheduleList = some (entries ++ [" —  at "])) := by
  constructor
  · intro entries hlist hinput
    simp [taskSubmit, hlist, hinput, taskFormReset]
  · intro entries hlist htitle hdate htime
    have htext : scheduleText "" "" "" = " —  at " := by decide
    simp [scheduleSubmit, hlist, htitle, hdate, htime, scheduleFormReset, htext]

theorem submit_empty_appends_witness :
    (taskSubmit (sampleForms "" "" "" "")).page.taskList
        = some (["Write agenda", "Send invites"] ++ [""]) ∧
      (scheduleSubmit (sampleForms "" "" "" "")).page.scheduleList
        = some (["Kickoff — 2023-12-31 at 10:00"] ++ [" —  at "]) :=
  ⟨(submit_empty_appends (sampleForms "" "" "" "")).1 _ rfl rfl,
   (submit_empty_appends (sampleForms "" "" "" "")).2 _ rfl rfl rfl rfl⟩

end Dashboard
